import Mathlib

/-!
Shallow embedding of `src/parallax.js` (LittleStrongMind/parallax).

JavaScript numbers are modelled as rationals (`ℚ`); all arithmetic in the
source is exact on the values that occur, so no floating-point rounding is
modelled. `Math.random()` is modelled as an infinite stream `g : ℕ → ℚ` of
pre-drawn values (each call consumes the head and the stream shifts); the
theorems that need it assume every drawn value lies in `[0, 1)`, which is
the contract of `Math.random`. Container width and height come from
`parseInt` in the source, hence are integers (`ℤ`).

The optional JavaScript arguments `previous` and `spread` of `_.random`
can be `undefined`, `null` (the initial `previous.x` in `calculate`), or a
number; `JVal` models exactly these three cases together with the coercion
rules the source relies on (`isNaN(undefined) = true`,
`isNaN(null) = false`, `null` coerces to `0` in subtraction).
-/

namespace ParallaxJs

/-- Model of a JavaScript value that may be `undefined`, `null`, or a number. -/
inductive JVal where
  | undef : JVal
  | null : JVal
  | num : ℚ → JVal
deriving DecidableEq

/-- JavaScript `isNaN` on a `JVal`: `isNaN(undefined)` is `true`,
`isNaN(null)` is `false` (since `Number(null) = 0`), and a plain
(rational) number is never NaN. -/
def JVal.isNaN : JVal → Bool
  | .undef => true
  | .null => false
  | .num _ => false

/-- Numeric coercion of a `JVal` as used in `value - previous`:
`null` coerces to `0`. The `undef` case is never reached in guarded uses
because the source guards with `!isNaN(previous)` first. -/
def JVal.toNum : JVal → ℚ
  | .undef => 0
  | .null => 0
  | .num q => q

/-- JavaScript truthiness of a `JVal` (used by `spread ? spread : 25.0`). -/
def JVal.truthy : JVal → Bool
  | .undef => false
  | .null => false
  | .num q => decide (q ≠ 0)

/- Namespace for the helper object `_` of the source (underscore is not a
legal Lean name). -/
namespace U

/-- The expression `Math.floor(Math.random() * (max - min + 1)) + min` of
`_.random`, with the drawn `Math.random()` value `r0` made explicit. -/
def baseSample (mn mx r0 : ℚ) : ℚ :=
  ((⌊r0 * (mx - mn + 1)⌋ : ℤ) : ℚ) + mn

/-- Embedding of `_.random(min, max, previous, spread)` (source lines 64-71).
The random source `g` is an explicit stream; the call consumes one value
for the base sample and, only when the jitter branch is taken, a second
one for `Math.random() * 20`. Returns the produced number together with
the remaining stream. -/
def random (mn mx : ℚ) (previous spreadArg : JVal) (g : ℕ → ℚ) :
    ℚ × (ℕ → ℚ) :=
  let spread : ℚ := if spreadArg.truthy then spreadArg.toNum else 25
  let value : ℚ := baseSample mn mx (g 0)
  if previous.isNaN = false ∧ spread ≤ |value - previous.toNum| then
    (value + g 1 * 20, fun n => g (n + 2))
  else
    (value, fun n => g (n + 1))

/-- Embedding of `_.isHex` (source lines 79-86): full-match of the regular
expression `(^#[0-9A-F]{6}$)|(^#[0-9A-F]{3}$)` with the case-insensitive
flag. -/
def isHex (color : String) : Bool :=
  match color.data with
  | '#' :: rest =>
      ((rest.length == 6) || (rest.length == 3)) &&
        rest.all fun c =>
          c.isDigit || (('a' ≤ c) && (c ≤ 'f')) || (('A' ≤ c) && (c ≤ 'F'))
  | _ => false

/-- Embedding of `_.pick(array)` = `array[_.random(0, array.length - 1)]`
(source lines 94-96). JavaScript indexing with a negative, fractional or
out-of-range number yields `undefined`, modelled as `none`. -/
def pick (arr : List String) (g : ℕ → ℚ) : Option String × (ℕ → ℚ) :=
  let r := random 0 ((arr.length : ℚ) - 1) .undef .undef g
  (if 0 ≤ r.1.num ∧ r.1.den = 1 then arr.get? r.1.num.toNat else none, r.2)

end U

/-- A speed vector `{x, y}`. -/
structure Vec where
  x : ℚ
  y : ℚ
deriving DecidableEq

/-- A star record as produced by `calculate`: position, colour (an
out-of-range palette pick would be JavaScript `undefined`, hence
`Option`), and the per-star speed jitter. -/
structure Star where
  x : ℚ
  y : ℚ
  color : Option String
  speed : Vec
deriving DecidableEq

/-- A layer: the user-facing spec fields plus the `stars` array that
`calculate` installs. A layer whose `density` (resp. `colors`) field is
absent in JavaScript is modelled with `none`. -/
structure Layer where
  size : ℚ
  speed : Vec
  colors : Option (List String)
  density : Option ℚ
  stars : List Star
deriving DecidableEq

/-- The mutable state of a `Parallax` instance. `width` and `height` are
set by `parseInt` on computed styles, hence integers. `running` and
`restarted` start out absent (undefined, falsy) in JavaScript, modelled
as `false`. -/
structure Parallax where
  width : ℤ
  height : ℤ
  colors : List String
  layers : List Layer
  running : Bool
  restarted : Bool
deriving DecidableEq

/-- The getter `get area () { return this.width * this.height; }`
(source line 238). -/
def Parallax.area (p : Parallax) : ℤ := p.width * p.height

/-- The expression `this.layers[o].density || 1/5000` of `calculate`
(source line 269): an absent density is `undefined` (falsy) and a zero
density is also falsy, so both fall back to `1/5000`. -/
def Layer.densityOrDefault (l : Layer) : ℚ :=
  match l.density with
  | some d => if d = 0 then 1 / 5000 else d
  | none => 1 / 5000

/-- Number of iterations of `for (let i = 0; i < density * this.area; i++)`
(source line 271): the count of naturals strictly below the rational
`density * area`, i.e. `max 0 ⌈density * area⌉`. -/
def starCount (l : Layer) (area : ℤ) : ℕ :=
  (⌈l.densityOrDefault * (area : ℚ)⌉ : ℤ).toNat

/-- One iteration of the star-generation loop body of `calculate` (source
lines 272-283): draw `x`, then `y` (each threading the previous value of
that coordinate into `_.random`), then pick a colour, then draw the
per-star vertical speed `Math.random() * .05`. -/
def genStar (w h : ℤ) (palette : List String) (px py : JVal) (g : ℕ → ℚ) :
    Star × (ℕ → ℚ) :=
  let rx := U.random (-10) (w : ℚ) px .undef g
  let ry := U.random (-10) (h : ℚ) py .undef rx.2
  let rc := U.pick palette ry.2
  ({ x := rx.1, y := ry.1, color := rc.1,
     speed := { x := 0, y := rc.2 0 * (5 / 100) } },
   fun n => rc.2 (n + 1))

/-- The inner loop of `calculate`: generate `n` stars, threading the
`previous` coordinate pair across iterations. Returns the stars, the
final `previous` pair, and the remaining stream. -/
def genStars (w h : ℤ) (palette : List String) :
    ℕ → JVal → JVal → (ℕ → ℚ) → List Star × JVal × JVal × (ℕ → ℚ)
  | 0, px, py, g => ([], px, py, g)
  | Nat.succ n, px, py, g =>
      let r := genStar w h palette px py g
      let rest := genStars w h palette n (JVal.num r.1.x) (JVal.num r.1.y) r.2
      (r.1 :: rest.1, rest.2.1, rest.2.2.1, rest.2.2.2)

/-- The outer loop of `calculate` (source lines 266-287): per layer,
resolve the effective palette (`this.layers[o].colors ? ... : this.colors`;
any array, even empty, is truthy), generate the stars, and replace the
`stars` field wholesale. The `previous` pair threads across layer
boundaries. -/
def calcLayers (w h : ℤ) (instColors : List String) :
    List Layer → JVal → JVal → (ℕ → ℚ) → List Layer × (ℕ → ℚ)
  | [], _, _, g => ([], g)
  | l :: ls, px, py, g =>
      let palette :=
        match l.colors with
        | some cs => cs
        | none => instColors
      let r := genStars w h palette (starCount l (w * h)) px py g
      let rest := calcLayers w h instColors ls r.2.1 r.2.2.1 r.2.2.2
      ({ l with stars := r.1 } :: rest.1, rest.2)

/-- Embedding of `Parallax.calculate` (source lines 259-290). The initial
`previous` pair is `{x: null, y: null}`. -/
def Parallax.calculate (p : Parallax) (g : ℕ → ℚ) : Parallax × (ℕ → ℚ) :=
  let r := calcLayers p.width p.height p.colors p.layers JVal.null JVal.null g
  ({ p with layers := r.1 }, r.2)

/-- Embedding of `Parallax.isInside` (source lines 219-231), with
`fadeDistance = 10.0`. -/
def Parallax.isInside (p : Parallax) (x y : ℚ) : Bool :=
  let fadeDistance : ℚ := 10
  ((decide (0 < x)) && (decide (x < (p.width : ℚ) + fadeDistance))) &&
    ((decide (0 < y)) && (decide (y < (p.height : ℚ) + fadeDistance)))

/-- The per-star body of `update` (source lines 307-313): a star inside
the canvas advances by the layer speed plus its own speed; a star outside
is respawned at `x = _.random(0, this.width)` (no `previous`, so never
jittered), `y = 1`. -/
def updateStar (p : Parallax) (lspeed : Vec) (st : Star) (g : ℕ → ℚ) :
    Star × (ℕ → ℚ) :=
  if p.isInside st.x st.y then
    ({ st with x := st.x + lspeed.x + st.speed.x,
               y := st.y + lspeed.y + st.speed.y }, g)
  else
    let r := U.random 0 (p.width : ℚ) .undef .undef g
    ({ st with x := r.1, y := 1 }, r.2)

/-- The inner loop of `update` over the stars of one layer. -/
def updateStars (p : Parallax) (lspeed : Vec) :
    List Star → (ℕ → ℚ) → List Star × (ℕ → ℚ)
  | [], g => ([], g)
  | st :: sts, g =>
      let r := updateStar p lspeed st g
      let rest := updateStars p lspeed sts r.2
      (r.1 :: rest.1, rest.2)

/-- The outer loop of `update` over the layers. -/
def updateLayers (p : Parallax) :
    List Layer → (ℕ → ℚ) → List Layer × (ℕ → ℚ)
  | [], g => ([], g)
  | l :: ls, g =>
      let r := updateStars p l.speed l.stars g
      let rest := updateLayers p ls r.2
      ({ l with stars := r.1 } :: rest.1, rest.2)

/-- Embedding of `Parallax.update` (source lines 298-317). -/
def Parallax.update (p : Parallax) (g : ℕ → ℚ) : Parallax × (ℕ → ℚ) :=
  let r := updateLayers p p.layers g
  ({ p with layers := r.1 }, r.2)

/-- Embedding of `Parallax.resize` (source lines 245-251): re-read the
container dimensions (passed here as the freshly measured `w`, `h`) and
re-run `calculate`. -/
def Parallax.resize (p : Parallax) (w h : ℤ) (g : ℕ → ℚ) :
    Parallax × (ℕ → ℚ) :=
  Parallax.calculate { p with width := w, height := h } g

/-- One execution of the body of `loop` inside `start` (source lines
366-373): while `running`, each animation frame clears, updates and
renders. Clearing and rendering only touch the canvas, not the instance
state, so the state effect of a tick is `update` (guarded by `running`). -/
def Parallax.tick (p : Parallax) (g : ℕ → ℚ) : Parallax × (ℕ → ℚ) :=
  if p.running then Parallax.update p g else (p, g)

/-- Embedding of `Parallax.start` (source lines 355-376): set `running`,
reseed via `calculate` only when `restarted` is falsy (and then leave
`restarted` false), then invoke `loop()`, whose first iteration runs
synchronously (subsequent iterations are separate animation frames,
modelled by further `tick` calls). -/
def Parallax.start (p : Parallax) (g : ℕ → ℚ) : Parallax × (ℕ → ℚ) :=
  let p1 : Parallax := { p with running := true }
  let r :=
    if p1.restarted = false then
      let c := Parallax.calculate p1 g
      ({ c.1 with restarted := false }, c.2)
    else (p1, g)
  Parallax.tick r.1 r.2

/-- Embedding of `Parallax.pause` (source lines 384-387). -/
def Parallax.pause (p : Parallax) : Parallax :=
  { p with running := false, restarted := true }

/-- The default colour palette (source line 139). -/
def defaultColors : List String :=
  ["#ffffff", "#6420e5", "#79e865", "#e81e6b"]

/-- The three default layers (source lines 179-183), built over the
resolved instance palette. -/
def defaultLayersFor (colors : List String) : List Layer :=
  [ { size := 3, speed := { x := 0, y := 1 / 2 }, colors := some colors,
      density := none, stars := [] },
    { size := 2, speed := { x := 0, y := 3 / 10 }, colors := some colors,
      density := none, stars := [] },
    { size := 1, speed := { x := 0, y := 1 / 5 }, colors := some colors,
      density := none, stars := [] } ]

/-- The layer-resolution expression of the constructor (source line 185):
`!layers ? defaults : mergeLayers ? defaults.concat(layers) : layers`.
An absent (`undefined`/`null`, falsy) argument is `none`; any supplied
array (even empty) is truthy. -/
def resolveLayers (colors : List String) (layersArg : Option (List Layer))
    (mergeLayers : Bool) : List Layer :=
  match layersArg with
  | none => defaultLayersFor colors
  | some ls => if mergeLayers then defaultLayersFor colors ++ ls else ls

/-- The `colors` constructor argument: absent, a single bare string
(coerced to a one-element array by `[].concat(colors)`), or an array. -/
inductive ColorsArg where
  | undef : ColorsArg
  | one : String → ColorsArg
  | many : List String → ColorsArg
deriving DecidableEq

/-- The coercion `Array.isArray(colors) ? colors : [].concat(colors)`
(source line 147), with `none` for an absent argument. -/
def ColorsArg.toList : ColorsArg → Option (List String)
  | .undef => none
  | .one s => some [s]
  | .many cs => some cs

/-- The colour-validation loop of the constructor (source lines 150-159):
`for (let color in colors) if (!_.isHex(colors[color])) errors.push(...)`,
accumulating every invalid token in order. -/
def collectInvalid : List String → List String → List String
  | [], acc => acc
  | c :: cs, acc =>
      collectInvalid cs (if U.isHex c then acc else acc ++ [c])

/-- The completion of the constructor body: either it executed one of the
two `return false` statements (with the `this.errors.colors` array it had
accumulated by then), or it ran to the end and fully initialized the
instance. -/
inductive CtorOutcome where
  | aborted : List String → CtorOutcome
  | completed : Parallax → CtorOutcome
deriving DecidableEq

/-- The fully initialized instance produced when the constructor body runs
to the end (source lines 175-208): resolved palette, resolved layers,
measured dimensions; `running` and `restarted` still undefined (falsy). -/
def mkInstance (colors : List String) (layersArg : Option (List Layer))
    (mergeLayers : Bool) (w h : ℤ) : Parallax :=
  { width := w, height := h, colors := colors,
    layers := resolveLayers colors layersArg mergeLayers,
    running := false, restarted := false }

/-- Embedding of the constructor body (source lines 129-209). The DOM
lookup `_.get(containerSelector)` is abstracted by the boolean
`containerFound`; the measured container dimensions are `w`, `h`. -/
def constructorBody (containerFound : Bool) (colorsArg : ColorsArg)
    (layersArg : Option (List Layer)) (mergeLayers : Bool) (w h : ℤ) :
    CtorOutcome :=
  if containerFound = false then CtorOutcome.aborted []
  else
    match colorsArg.toList with
    | some cs =>
        let bad := collectInvalid cs []
        if bad = [] then
          CtorOutcome.completed (mkInstance cs layersArg mergeLayers w h)
        else CtorOutcome.aborted bad
    | none =>
        CtorOutcome.completed
          (mkInstance defaultColors layersArg mergeLayers w h)

/-- What a caller of `new Parallax(...)` receives. Per the ECMAScript
`[[Construct]]` semantics for class constructors, a returned value that is
not an object is discarded and the allocated `this` object is returned
instead, so the caller always receives an object reference; `primFalse`
(the literal `false` value) is included to express that it is never the
result. -/
inductive JsCallerView where
  | objectRef : CtorOutcome → JsCallerView
  | primFalse : JsCallerView
deriving DecidableEq

/-- The observable result of evaluating `new Parallax(...)`: always the
allocated object, whose initialization state is the body outcome; the
`return false` statements do not reach the caller. -/
def jsNew (containerFound : Bool) (colorsArg : ColorsArg)
    (layersArg : Option (List Layer)) (mergeLayers : Bool) (w h : ℤ) :
    JsCallerView :=
  JsCallerView.objectRef
    (constructorBody containerFound colorsArg layersArg mergeLayers w h)

/-- A copy of an instance with every layer stripped of its stars (used to
state that `resize` discards all existing star positions). -/
def stripStars (p : Parallax) : Parallax :=
  { p with layers := p.layers.map fun l => { l with stars := [] } }

/-- The three public operations whose interleaving the temporal claim
about `pause`/`start`/`resize` quantifies over. -/
inductive Op where
  | startOp : Op
  | pauseOp : Op
  | tickOp : Op
deriving DecidableEq

/-- Apply one operation to an instance-plus-stream pair. -/
def applyOp (op : Op) (pg : Parallax × (ℕ → ℚ)) : Parallax × (ℕ → ℚ) :=
  match op with
  | .startOp => Parallax.start pg.1 pg.2
  | .pauseOp => (Parallax.pause pg.1, pg.2)
  | .tickOp => Parallax.tick pg.1 pg.2

/-- Apply a sequence of operations in order. -/
def applyOps (ops : List Op) (pg : Parallax × (ℕ → ℚ)) :
    Parallax × (ℕ → ℚ) :=
  ops.foldl (fun acc op => applyOp op acc) pg

/-- The concrete instance refuting the floor-based star count: a 50 by 50
canvas with the default density gives density * area = 1/2. -/
def c1layer : Layer :=
  { size := 1, speed := { x := 0, y := 0 }, colors := none, density := none,
    stars := [] }

/-- A 50 by 50 instance holding just `c1layer`. -/
def c1p : Parallax :=
  { width := 50, height := 50, colors := ["#ffffff"], layers := [c1layer],
    running := false, restarted := false }

/-- A random stream that always yields 0. -/
def c1g : ℕ → ℚ := fun _ => 0

/-- Helper: a random stream whose every value lies in the unit interval
`[0, 1)`, the contract of `Math.random`. -/
def unitStream (g : ℕ → ℚ) : Prop := ∀ n, 0 ≤ g n ∧ g n < 1

/-- The constant one-half stream used to witness the sampler claim. -/
def c8g : ℕ → ℚ := fun _ => 1 / 2

/-- The star outside the canvas used to witness the update claim. -/
def c2st : Star :=
  { x := 200, y := 5, color := some ("#ffffff"), speed := { x := 0, y := 0 } }

/-- The single layer holding that star. -/
def c2l : Layer :=
  { size := 1, speed := { x := 2, y := 3 }, colors := none, density := none,
    stars := [c2st] }

/-- A 100 by 100 instance holding just that layer. -/
def c2p : Parallax :=
  { width := 100, height := 100, colors := ["#ffffff"], layers := [c2l],
    running := false, restarted := false }

/-- The constant one-half stream used to witness the update claim. -/
def c2g : ℕ → ℚ := fun _ => 1 / 2

/-- The 50 by 50 single-layer instance used to witness the star-bounds
claim. -/
def c5wp : Parallax :=
  { width := 50, height := 50, colors := ["#ffffff"],
    layers := [{ size := 1, speed := { x := 0, y := 0 }, colors := none,
                 density := none, stars := [] }],
    running := false, restarted := false }

/-- The constant zero stream used to witness the star-bounds claim. -/
def c5wg : ℕ → ℚ := fun _ => 0

/-- The single layer of the counterexample instance: density 1/10000 on a
100 by 100 canvas gives exactly one star. -/
def c5layer : Layer :=
  { size := 1, speed := { x := 0, y := 0 }, colors := none,
    density := some (1 / 10000), stars := [] }

/-- The 100 by 100 instance refuting the claimed upper bound x <= width. -/
def c5p : Parallax :=
  { width := 100, height := 100, colors := ["#ffffff"], layers := [c5layer],
    running := false, restarted := false }

/-- A stream drawing 110/111 first (base sample 100 = width) and one-half
afterwards (jitter 10, pushing x to 110 > width). -/
def c5g : ℕ → ℚ := fun n => if n = 0 then 110 / 111 else 1 / 2

/-- Helper: the accumulation loop of the colour check is the filter of the
invalid tokens appended to the accumulator. -/
theorem collectInvalid_eq : ∀ (cs acc : List String),
    collectInvalid cs acc = acc ++ cs.filter fun c => !(U.isHex c)
  | [], acc => by simp [collectInvalid]
  | c :: cs, acc => by
      rw [collectInvalid, collectInvalid_eq]
      cases hc : U.isHex c <;> simp [hc, List.filter_cons]

/-- C4: isInside(x, y) returns true if and only if 0 < x < width + 10 and
0 < y < height + 10, and returns false on each of the four boundary
equalities x = 0, x = width + 10, y = 0, y = height + 10. -/
theorem c4_isInside_boundaries (p : Parallax) (x y : ℚ) :
    (p.isInside x y = true ↔
      (0 < x ∧ x < (p.width : ℚ) + 10 ∧ 0 < y ∧ y < (p.height : ℚ) + 10))
    ∧ p.isInside 0 y = false
    ∧ p.isInside ((p.width : ℚ) + 10) y = false
    ∧ p.isInside x 0 = false
    ∧ p.isInside x ((p.height : ℚ) + 10) = false := by
  unfold Parallax.isInside
  refine ⟨by simp [and_assoc], by simp, by simp, by simp, by simp⟩

/-- C7: with no layers supplied the instance uses exactly the three default
layers (sizes 3/2/1, vertical speeds 0.5/0.3/0.2, horizontal speed 0,
sharing the resolved palette); with layers supplied and mergeLayers true
the defaults are prepended before the supplied layers; with mergeLayers
false the defaults are discarded; and the constructor installs exactly this
resolution. -/
theorem c7_layer_resolution (colors : List String) (ls : List Layer)
    (m mm : Bool) (la : Option (List Layer)) (w h : ℤ) :
    resolveLayers colors none m = defaultLayersFor colors
    ∧ resolveLayers colors (some ls) true = defaultLayersFor colors ++ ls
    ∧ resolveLayers colors (some ls) false = ls
    ∧ defaultLayersFor colors =
        [ { size := 3, speed := { x := 0, y := 5 / 10 }, colors := some colors,
            density := none, stars := [] },
          { size := 2, speed := { x := 0, y := 3 / 10 }, colors := some colors,
            density := none, stars := [] },
          { size := 1, speed := { x := 0, y := 2 / 10 }, colors := some colors,
            density := none, stars := [] } ]
    ∧ (mkInstance colors la mm w h).layers = resolveLayers colors la mm := by
  refine ⟨rfl, rfl, rfl, ?_, rfl⟩
  norm_num [defaultLayersFor]

/-- C3 (code evaluation): the constructor body does execute `return false`
on a missing container or an invalid colour, but per the ECMAScript
semantics of `new` on a class constructor a primitive return value is
discarded, so the caller always receives the allocated instance object and
never the `false` sentinel; the construction result therefore cannot
distinguish failure from a usable instance. -/
theorem c3_construction_returns_object :
    (constructorBody false ColorsArg.undef none false 0 0
        = CtorOutcome.aborted [])
    ∧ (constructorBody true (ColorsArg.many ["#ff0000", "notacolor"]) none
        false 100 100 = CtorOutcome.aborted ["notacolor"])
    ∧ (jsNew false ColorsArg.undef none false 0 0
        = JsCallerView.objectRef (CtorOutcome.aborted []))
    ∧ (jsNew true (ColorsArg.many ["#ff0000", "notacolor"]) none false 100 100
        = JsCallerView.objectRef (CtorOutcome.aborted ["notacolor"]))
    ∧ (∀ (cf : Bool) (ca : ColorsArg) (la : Option (List Layer)) (m : Bool)
        (w h : ℤ), ∃ outcome,
          jsNew cf ca la m w h = JsCallerView.objectRef outcome) := by
  refine ⟨by decide, by decide, by decide, by decide, ?_⟩
  intro cf ca la m w h
  exact ⟨constructorBody cf ca la m w h, rfl⟩

/-- C6: every colour token is validated, all invalid tokens are accumulated
before construction fails (not fail-fast on the first), the reported
invalid set is exactly the (ordered) set of invalid tokens, and the
supplied example colours fail with reported set exactly ["notacolor"]. -/
theorem c6_color_validation_accumulates (cs : List String)
    (la : Option (List Layer)) (m : Bool) (w h : ℤ) :
    (constructorBody true (ColorsArg.many cs) la m w h =
      if (cs.filter fun c => !(U.isHex c)) = [] then
        CtorOutcome.completed (mkInstance cs la m w h)
      else CtorOutcome.aborted (cs.filter fun c => !(U.isHex c)))
    ∧ constructorBody true (ColorsArg.many ["#ff0000", "notacolor"]) la m w h
        = CtorOutcome.aborted ["notacolor"] := by
  constructor
  · simp [constructorBody, ColorsArg.toList, collectInvalid_eq]
  · have hbad : collectInvalid ["#ff0000", "notacolor"] [] = ["notacolor"] := by
      decide
    simp [constructorBody, ColorsArg.toList, hbad]

/-- Helper: the star-generation loop produces exactly the requested number
of stars. -/
theorem genStars_length (w h : ℤ) (palette : List String) :
    ∀ (n : ℕ) (px py : JVal) (g : ℕ → ℚ),
      (genStars w h palette n px py g).1.length = n
  | 0, _, _, _ => rfl
  | Nat.succ n, px, py, g => by
      simp [genStars, genStars_length w h palette n]

/-- Helper: per-layer star counts after the calculate loop. -/
theorem calcLayers_lengths (w h : ℤ) (cl : List String) :
    ∀ (ls : List Layer) (px py : JVal) (g : ℕ → ℚ),
      (calcLayers w h cl ls px py g).1.map (fun l => l.stars.length)
        = ls.map fun l => starCount l (w * h)
  | [], _, _, _ => rfl
  | l :: ls, px, py, g => by
      simp [calcLayers, genStars_length, calcLayers_lengths w h cl ls]

/-- Helper: the calculate loop keeps every non-star layer field and installs
exactly the computed number of stars per layer. -/
theorem calcLayers_shape (w h : ℤ) (cl : List String) :
    ∀ (ls : List Layer) (px py : JVal) (g : ℕ → ℚ),
      (calcLayers w h cl ls px py g).1.map
          (fun l => (l.size, l.speed, l.colors, l.density, l.stars.length))
        = ls.map fun l => (l.size, l.speed, l.colors, l.density,
            starCount l (w * h))
  | [], _, _, _ => rfl
  | l :: ls, px, py, g => by
      simp [calcLayers, genStars_length, calcLayers_shape w h cl ls]

/-- Helper: the calculate loop never reads the previous stars of a layer. -/
theorem calcLayers_strip (w h : ℤ) (cl : List String) :
    ∀ (ls : List Layer) (px py : JVal) (g : ℕ → ℚ),
      calcLayers w h cl (ls.map fun l => { l with stars := [] }) px py g
        = calcLayers w h cl ls px py g
  | [], _, _, _ => rfl
  | l :: ls, px, py, g => by
      simp only [List.map_cons, calcLayers]
      rw [calcLayers_strip w h cl ls]
      rfl

/-- Helper: calculate does not depend on the previously stored stars. -/
theorem calculate_strip (p : Parallax) (g : ℕ → ℚ) :
    Parallax.calculate (stripStars p) g = Parallax.calculate p g := by
  simp only [Parallax.calculate, stripStars]
  rw [calcLayers_strip]

/-- C1 (amended): calculate generates, for every layer, exactly
ceil(density * width * height) stars (density 1/5000 when the layer gives
none), keeps every other layer field, and replaces the star array
wholesale, never reading the previously stored stars. -/
theorem c1_star_count_amended (p : Parallax) (g : ℕ → ℚ) :
    ((Parallax.calculate p g).1.layers.map
        (fun l => (l.size, l.speed, l.colors, l.density, l.stars.length))
      = p.layers.map fun l =>
          (l.size, l.speed, l.colors, l.density, starCount l p.area))
    ∧ Parallax.calculate p g = Parallax.calculate (stripStars p) g := by
  exact ⟨calcLayers_shape p.width p.height p.colors p.layers .null .null g,
    (calculate_strip p g).symm⟩

/-- C1 (counterexample): with width = height = 50 and the default density
1/5000, density * area = 1/2, and calculate generates 1 star while the
claimed floor formula gives 0. -/
theorem c1_floor_counterexample :
    ¬ ((Parallax.calculate c1p c1g).1.layers.map (fun l => l.stars.length)
        = c1p.layers.map fun l =>
            (⌊l.densityOrDefault * ((c1p.area : ℤ) : ℚ)⌋).toNat) := by
  have hlen := calcLayers_lengths c1p.width c1p.height c1p.colors c1p.layers
    .null .null c1g
  have harea : c1layer.densityOrDefault * ((c1p.area : ℤ) : ℚ) = 1 / 2 := by
    norm_num [Layer.densityOrDefault, c1layer, c1p, Parallax.area]
  have hceil : (⌈(1 : ℚ) / 2⌉ : ℤ) = 1 := Int.ceil_eq_iff.mpr (by norm_num)
  have hcount : starCount c1layer (c1p.width * c1p.height) = 1 := by
    rw [starCount]
    rw [show ((c1p.width * c1p.height : ℤ) : ℚ)
          = ((c1p.area : ℤ) : ℚ) from rfl]
    rw [harea, hceil]
    rfl
  have hfloor : (⌊(1 : ℚ) / 2⌋ : ℤ) = 0 := by norm_num
  intro h
  rw [show (Parallax.calculate c1p c1g).1.layers
        = (calcLayers c1p.width c1p.height c1p.colors c1p.layers .null .null
            c1g).1 from rfl] at h
  rw [hlen] at h
  rw [show c1p.layers = [c1layer] from rfl] at h
  simp only [List.map_cons, List.map_nil] at h
  rw [hcount, harea, hfloor] at h
  simp at h

/-- Helper: one update step never changes the colour or the speed of a
star. -/
theorem updateStar_keeps (p : Parallax) (lsp : Vec) (st : Star)
    (g : ℕ → ℚ) :
    ((updateStar p lsp st g).1.color = st.color)
    ∧ ((updateStar p lsp st g).1.speed = st.speed) := by
  unfold updateStar
  split <;> simp

/-- Helper: the star-update loop keeps the number of stars. -/
theorem updateStars_length (p : Parallax) (lsp : Vec) :
    ∀ (sts : List Star) (g : ℕ → ℚ),
      (updateStars p lsp sts g).1.length = sts.length
  | [], _ => rfl
  | st :: sts, g => by
      simp [updateStars, updateStars_length p lsp sts]

/-- Helper: the star-update loop keeps every colour and speed in order. -/
theorem updateStars_keeps (p : Parallax) (lsp : Vec) :
    ∀ (sts : List Star) (g : ℕ → ℚ),
      (updateStars p lsp sts g).1.map (fun s => (s.color, s.speed))
        = sts.map fun s => (s.color, s.speed)
  | [], _ => rfl
  | st :: sts, g => by
      simp [updateStars, updateStars_keeps p lsp sts,
        (updateStar_keeps p lsp st g).1, (updateStar_keeps p lsp st g).2]

/-- Helper: the layer-update loop keeps every non-position component. -/
theorem updateLayers_keeps (p : Parallax) :
    ∀ (ls : List Layer) (g : ℕ → ℚ),
      (updateLayers p ls g).1.map
          (fun l => (l.size, l.speed, l.colors, l.density, l.stars.length,
            l.stars.map fun s => (s.color, s.speed)))
        = ls.map fun l => (l.size, l.speed, l.colors, l.density,
            l.stars.length, l.stars.map fun s => (s.color, s.speed))
  | [], _ => rfl
  | l :: ls, g => by
      simp [updateLayers, updateLayers_keeps p ls, updateStars_keeps,
        updateStars_length]

/-- Helper: the layer-update loop keeps the number of layers. -/
theorem updateLayers_length (p : Parallax) :
    ∀ (ls : List Layer) (g : ℕ → ℚ),
      (updateLayers p ls g).1.length = ls.length
  | [], _ => rfl
  | l :: ls, g => by
      simp [updateLayers, updateLayers_length p ls]

/-- C10: update mutates only star positions: it keeps the instance fields,
the number and order of layers, every layer parameter, the number of stars
per layer, and every star colour and speed vector. -/
theorem c10_update_frame (p : Parallax) (g : ℕ → ℚ) :
    ((Parallax.update p g).1.width = p.width)
    ∧ ((Parallax.update p g).1.height = p.height)
    ∧ ((Parallax.update p g).1.colors = p.colors)
    ∧ ((Parallax.update p g).1.running = p.running)
    ∧ ((Parallax.update p g).1.restarted = p.restarted)
    ∧ ((Parallax.update p g).1.layers.length = p.layers.length)
    ∧ ((Parallax.update p g).1.layers.map
          (fun l => (l.size, l.speed, l.colors, l.density, l.stars.length,
            l.stars.map fun s => (s.color, s.speed)))
        = p.layers.map fun l => (l.size, l.speed, l.colors, l.density,
            l.stars.length, l.stars.map fun s => (s.color, s.speed))) := by
  refine ⟨rfl, rfl, rfl, rfl, rfl, ?_, ?_⟩
  · exact updateLayers_length p p.layers g
  · exact updateLayers_keeps p p.layers g

/-- Helper: update keeps the restarted flag. -/
theorem update_restarted (p : Parallax) (g : ℕ → ℚ) :
    (Parallax.update p g).1.restarted = p.restarted := rfl

/-- Helper: each of the three operations keeps a set restarted flag. -/
theorem applyOp_restarted (op : Op) (pg : Parallax × (ℕ → ℚ))
    (hr : pg.1.restarted = true) : (applyOp op pg).1.restarted = true := by
  cases op
  case pauseOp => simp [applyOp, Parallax.pause]
  case tickOp =>
    rw [applyOp, Parallax.tick]
    split
    · rw [update_restarted]; exact hr
    · exact hr
  case startOp =>
    rw [applyOp, Parallax.start]
    have h1 : ({ pg.1 with running := true } : Parallax).restarted = true := hr
    rw [if_neg (by rw [h1]; simp)]
    rw [Parallax.tick]
    split
    · rw [update_restarted]; exact h1
    · exact h1

/-- Helper: once the restarted flag is set, no sequence of start, pause and
frame-tick operations ever clears it. -/
theorem applyOps_restarted :
    ∀ (ops : List Op) (pg : Parallax × (ℕ → ℚ)),
      pg.1.restarted = true → (applyOps ops pg).1.restarted = true
  | [], _, hr => hr
  | op :: ops, pg, hr =>
      applyOps_restarted ops (applyOp op pg) (applyOp_restarted op pg hr)

/-- C9: pause followed by start never re-runs calculate: the resulting
state change is exactly one running frame update from the preserved stars
(and the same holds for every later cycle, since the restarted flag stays
set and a start on a restarted instance is a plain resume); resize always
re-runs calculate, discarding all previously stored stars. -/
theorem c9_pause_start_resize (p q : Parallax) (g g2 : ℕ → ℚ) (w h : ℤ)
    (ops : List Op) :
    (Parallax.start (Parallax.pause p) g
      = Parallax.update { p with running := true, restarted := true } g)
    ∧ ((applyOps ops (Parallax.pause p, g)).1.restarted = true)
    ∧ (Parallax.start { q with restarted := true } g2
      = Parallax.update { q with restarted := true, running := true } g2)
    ∧ (Parallax.resize p w h g
      = Parallax.calculate { p with width := w, height := h } g)
    ∧ (Parallax.resize p w h g = Parallax.resize (stripStars p) w h g) := by
  refine ⟨rfl, applyOps_restarted ops (Parallax.pause p, g) rfl, rfl, rfl, ?_⟩
  exact (calculate_strip { p with width := w, height := h } g).symm

/-- Helper: the base sample of `_.random` over integer bounds is an integer
in `[min, max]` whenever the drawn value lies in `[0, 1)`. -/
theorem baseSample_int (mn mx : ℤ) (r : ℚ) (h0 : 0 ≤ r) (h1 : r < 1)
    (hle : mn ≤ mx) :
    ∃ z : ℤ, U.baseSample ((mn : ℤ) : ℚ) ((mx : ℤ) : ℚ) r = (z : ℚ)
      ∧ mn ≤ z ∧ z ≤ mx := by
  have hmn : ((mn : ℤ) : ℚ) ≤ ((mx : ℤ) : ℚ) := by exact_mod_cast hle
  have hL : (0 : ℚ) < ((mx : ℤ) : ℚ) - ((mn : ℤ) : ℚ) + 1 := by linarith
  refine ⟨⌊r * (((mx : ℤ) : ℚ) - ((mn : ℤ) : ℚ) + 1)⌋ + mn, ?_, ?_, ?_⟩
  · rw [U.baseSample]
    push_cast
    ring
  · have h2 : (0 : ℤ) ≤ ⌊r * (((mx : ℤ) : ℚ) - ((mn : ℤ) : ℚ) + 1)⌋ :=
      Int.floor_nonneg.mpr (mul_nonneg h0 (by linarith))
    linarith
  · have hlt : r * (((mx : ℤ) : ℚ) - ((mn : ℤ) : ℚ) + 1)
        < ((mx - mn + 1 : ℤ) : ℚ) := by
      have hc : ((mx - mn + 1 : ℤ) : ℚ)
          = ((mx : ℤ) : ℚ) - ((mn : ℤ) : ℚ) + 1 := by push_cast; ring
      rw [hc]
      nlinarith
    have h3 := Int.floor_lt.mpr hlt
    omega

/-- Helper: with an undefined previous value, `_.random` never jitters: it
returns the base sample and consumes exactly one drawn value. -/
theorem random_undef (mn mx : ℚ) (sp : JVal) (g : ℕ → ℚ) :
    U.random mn mx JVal.undef sp g
      = (U.baseSample mn mx (g 0), fun n => g (n + 1)) := by
  simp [U.random, JVal.isNaN]

/-- C8: sample(min, max, previous?, spread=25) first produces an integer in
[min, max]; with previous undefined that integer is returned unchanged;
with previous a number and |integer - previous| at least the default
spread 25, a jitter in [0, 20) is added with no reclamping, which can push
the result above max. -/
theorem c8_sample (mn mx : ℤ) (pv : ℚ) (g : ℕ → ℚ)
    (hg : ∀ n, 0 ≤ g n ∧ g n < 1) (hle : mn ≤ mx) :
    (∃ z : ℤ, U.baseSample ((mn : ℤ) : ℚ) ((mx : ℤ) : ℚ) (g 0) = (z : ℚ)
      ∧ mn ≤ z ∧ z ≤ mx)
    ∧ ((U.random ((mn : ℤ) : ℚ) ((mx : ℤ) : ℚ) JVal.undef JVal.undef g).1
      = U.baseSample ((mn : ℤ) : ℚ) ((mx : ℤ) : ℚ) (g 0))
    ∧ (25 ≤ |U.baseSample ((mn : ℤ) : ℚ) ((mx : ℤ) : ℚ) (g 0) - pv| →
      (U.random ((mn : ℤ) : ℚ) ((mx : ℤ) : ℚ) (JVal.num pv) JVal.undef g).1
          = U.baseSample ((mn : ℤ) : ℚ) ((mx : ℤ) : ℚ) (g 0) + g 1 * 20
        ∧ 0 ≤ g 1 * 20 ∧ g 1 * 20 < 20)
    ∧ (|U.baseSample ((mn : ℤ) : ℚ) ((mx : ℤ) : ℚ) (g 0) - pv| < 25 →
      (U.random ((mn : ℤ) : ℚ) ((mx : ℤ) : ℚ) (JVal.num pv) JVal.undef g).1
        = U.baseSample ((mn : ℤ) : ℚ) ((mx : ℤ) : ℚ) (g 0))
    ∧ (∃ (mn2 mx2 : ℤ) (pv2 : ℚ) (g2 : ℕ → ℚ),
      (∀ n, 0 ≤ g2 n ∧ g2 n < 1) ∧ mn2 ≤ mx2 ∧
        ((mx2 : ℚ) <
          (U.random ((mn2 : ℤ) : ℚ) ((mx2 : ℤ) : ℚ) (JVal.num pv2)
            JVal.undef g2).1)) := by
  refine ⟨baseSample_int mn mx (g 0) (hg 0).1 (hg 0).2 hle, ?_, ?_, ?_, ?_⟩
  · rw [random_undef]
  · intro hj
    refine ⟨?_, mul_nonneg (hg 1).1 (by norm_num), ?_⟩
    · simp [U.random, JVal.isNaN, JVal.toNum, JVal.truthy, hj]
    · nlinarith [(hg 1).2]
  · intro hj
    simp [U.random, JVal.isNaN, JVal.toNum, JVal.truthy, not_le.mpr hj]
  · refine ⟨0, 9, 100, fun _ => 1 / 2, fun n => by norm_num, by norm_num, ?_⟩
    have hb : U.baseSample ((0 : ℤ) : ℚ) ((9 : ℤ) : ℚ) (1 / 2) = 5 := by
      rw [U.baseSample]
      norm_num
    simp only [U.random, JVal.isNaN, JVal.toNum, JVal.truthy, hb]
    norm_num

/-- C8 (witness): the sampler claim instantiated at min = 0, max = 9,
previous = 100 and a constant one-half stream. -/
theorem c8_sample_witness :
    (∀ n, 0 ≤ c8g n ∧ c8g n < 1) ∧ (0 : ℤ) ≤ 9 ∧
      ((U.random (((0 : ℤ) : ℤ) : ℚ) (((9 : ℤ) : ℤ) : ℚ) JVal.undef
          JVal.undef c8g).1
        = U.baseSample (((0 : ℤ) : ℤ) : ℚ) (((9 : ℤ) : ℤ) : ℚ) (c8g 0)) := by
  have hg : ∀ n, 0 ≤ c8g n ∧ c8g n < 1 := fun n => by norm_num [c8g]
  exact ⟨hg, by norm_num, (c8_sample 0 9 100 c8g hg (by norm_num)).2.1⟩

/-- Helper: one `_.random` call leaves a unit-interval stream. -/
theorem random_unit (mn mx : ℚ) (pv sp : JVal) (g : ℕ → ℚ)
    (hg : unitStream g) : unitStream (U.random mn mx pv sp g).2 := by
  intro n
  simp only [U.random]
  split <;> split
  all_goals first
  | exact hg (n + 2)
  | exact hg (n + 1)

/-- Helper: one `_.pick` call leaves a unit-interval stream. -/
theorem pick_unit (arr : List String) (g : ℕ → ℚ) (hg : unitStream g) :
    unitStream (U.pick arr g).2 :=
  random_unit 0 ((arr.length : ℚ) - 1) .undef .undef g hg

/-- Helper: one star update leaves a unit-interval stream. -/
theorem updateStar_unit (p : Parallax) (lsp : Vec) (st : Star) (g : ℕ → ℚ)
    (hg : unitStream g) : unitStream (updateStar p lsp st g).2 := by
  unfold updateStar
  split
  · exact hg
  · exact random_unit 0 ((p.width : ℤ) : ℚ) .undef .undef g hg

/-- Helper: the star-update loop leaves a unit-interval stream. -/
theorem updateStars_unit (p : Parallax) (lsp : Vec) :
    ∀ (sts : List Star) (g : ℕ → ℚ), unitStream g →
      unitStream (updateStars p lsp sts g).2
  | [], _, hg => hg
  | st :: sts, g, hg =>
      updateStars_unit p lsp sts (updateStar p lsp st g).2
        (updateStar_unit p lsp st g hg)

/-- Helper: full characterisation of one star update: an inside star moves
by the layer speed plus its own speed; an outside star is respawned at
y = 1 with an x in [0, width]. -/
theorem updateStar_spec (p : Parallax) (lsp : Vec) (st : Star) (g : ℕ → ℚ)
    (hg : unitStream g) (hw : 0 ≤ p.width) :
    (p.isInside st.x st.y = true →
      (updateStar p lsp st g).1
        = { st with x := st.x + lsp.x + st.speed.x,
                    y := st.y + lsp.y + st.speed.y })
    ∧ (p.isInside st.x st.y = false →
      (updateStar p lsp st g).1.y = 1 ∧ 0 ≤ (updateStar p lsp st g).1.x
        ∧ (updateStar p lsp st g).1.x ≤ (p.width : ℚ)) := by
  constructor
  · intro h
    unfold updateStar
    rw [if_pos h]
  · intro h
    unfold updateStar
    rw [if_neg (by rw [h]; exact Bool.false_ne_true)]
    obtain ⟨z, hz, hz0, hzw⟩ :=
      baseSample_int 0 p.width (g 0) (hg 0).1 (hg 0).2 hw
    have hz2 : U.baseSample 0 ((p.width : ℤ) : ℚ) (g 0) = (z : ℚ) := by
      rw [← hz]
      norm_num
    rw [random_undef]
    refine ⟨rfl, ?_, ?_⟩
    · show (0 : ℚ) ≤ U.baseSample 0 ((p.width : ℤ) : ℚ) (g 0)
      rw [hz2]
      exact_mod_cast hz0
    · show U.baseSample 0 ((p.width : ℤ) : ℚ) (g 0) ≤ ((p.width : ℤ) : ℚ)
      rw [hz2]
      exact_mod_cast hzw

/-- Helper: per-index characterisation of the star-update loop. -/
theorem updateStars_spec (p : Parallax) (lsp : Vec) (hw : 0 ≤ p.width) :
    ∀ (sts : List Star) (g : ℕ → ℚ), unitStream g →
      ∀ (i : ℕ) (st : Star), sts.get? i = some st →
        ∃ st2, (updateStars p lsp sts g).1.get? i = some st2 ∧
          (p.isInside st.x st.y = true →
            st2 = { st with x := st.x + lsp.x + st.speed.x,
                            y := st.y + lsp.y + st.speed.y })
          ∧ (p.isInside st.x st.y = false →
            st2.y = 1 ∧ 0 ≤ st2.x ∧ st2.x ≤ (p.width : ℚ))
  | [], _, _, i, st, h => by simp at h
  | s0 :: sts, g, hg, 0, st, h => by
      obtain rfl : s0 = st := by simpa using h
      refine ⟨(updateStar p lsp s0 g).1, by simp [updateStars], ?_, ?_⟩
      · exact (updateStar_spec p lsp s0 g hg hw).1
      · exact (updateStar_spec p lsp s0 g hg hw).2
  | s0 :: sts, g, hg, Nat.succ i, st, h => by
      obtain ⟨st2, h2, hp⟩ := updateStars_spec p lsp hw sts
        (updateStar p lsp s0 g).2 (updateStar_unit p lsp s0 g hg) i st
        (by simpa using h)
      exact ⟨st2, by simpa [updateStars] using h2, hp⟩

/-- Helper: per-index characterisation of the layer-update loop. -/
theorem updateLayers_spec (p : Parallax) (hw : 0 ≤ p.width) :
    ∀ (ls : List Layer) (g : ℕ → ℚ), unitStream g →
      ∀ (o : ℕ) (l : Layer), ls.get? o = some l →
        ∃ l2, (updateLayers p ls g).1.get? o = some l2 ∧
          ∀ (i : ℕ) (st : Star), l.stars.get? i = some st →
            ∃ st2, l2.stars.get? i = some st2 ∧
              (p.isInside st.x st.y = true →
                st2 = { st with x := st.x + l.speed.x + st.speed.x,
                                y := st.y + l.speed.y + st.speed.y })
              ∧ (p.isInside st.x st.y = false →
                st2.y = 1 ∧ 0 ≤ st2.x ∧ st2.x ≤ (p.width : ℚ))
  | [], _, _, o, l, h => by simp at h
  | l0 :: ls, g, hg, 0, l, h => by
      obtain rfl : l0 = l := by simpa using h
      refine ⟨{ l0 with stars := (updateStars p l0.speed l0.stars g).1 },
        by simp [updateLayers], ?_⟩
      intro i st hst
      exact updateStars_spec p l0.speed hw l0.stars g hg i st hst
  | l0 :: ls, g, hg, Nat.succ o, l, h => by
      obtain ⟨l2, h2, hp⟩ := updateLayers_spec p hw ls
        (updateStars p l0.speed l0.stars g).2
        (updateStars_unit p l0.speed l0.stars g hg) o l (by simpa using h)
      exact ⟨l2, by simpa [updateLayers] using h2, hp⟩

/-- C2: one update call moves every star that was inside by exactly
(layer.speed.x + star.speed.x, layer.speed.y + star.speed.y) and relocates
every star that was outside to y = 1 with some x satisfying
0 <= x <= width. -/
theorem c2_update_motion (p : Parallax) (g : ℕ → ℚ)
    (hg : ∀ n, 0 ≤ g n ∧ g n < 1) (hw : 0 ≤ p.width) (o i : ℕ)
    (l : Layer) (st : Star) (hl : p.layers.get? o = some l)
    (hs : l.stars.get? i = some st) :
    ∃ l2, (Parallax.update p g).1.layers.get? o = some l2 ∧
      ∃ st2, l2.stars.get? i = some st2 ∧
        (p.isInside st.x st.y = true →
          st2 = { st with x := st.x + l.speed.x + st.speed.x,
                          y := st.y + l.speed.y + st.speed.y })
        ∧ (p.isInside st.x st.y = false →
          st2.y = 1 ∧ 0 ≤ st2.x ∧ st2.x ≤ (p.width : ℚ)) := by
  obtain ⟨l2, hl2, hp⟩ := updateLayers_spec p hw p.layers g hg o l hl
  exact ⟨l2, hl2, hp i st hs⟩

/-- C2 (witness): the update claim instantiated for a concrete out-of-range
star on a 100 by 100 canvas with a constant one-half stream. -/
theorem c2_update_motion_witness :
    (∀ n, 0 ≤ c2g n ∧ c2g n < 1) ∧ 0 ≤ c2p.width ∧
      (∃ l2, (Parallax.update c2p c2g).1.layers.get? 0 = some l2 ∧
        ∃ st2, l2.stars.get? 0 = some st2 ∧
          (c2p.isInside c2st.x c2st.y = true →
            st2 = { c2st with x := c2st.x + c2l.speed.x + c2st.speed.x,
                              y := c2st.y + c2l.speed.y + c2st.speed.y })
          ∧ (c2p.isInside c2st.x c2st.y = false →
            st2.y = 1 ∧ 0 ≤ st2.x ∧ st2.x ≤ (c2p.width : ℚ))) := by
  have hg : ∀ n, 0 ≤ c2g n ∧ c2g n < 1 := fun n => by norm_num [c2g]
  have hw : (0 : ℤ) ≤ c2p.width := by norm_num [c2p]
  exact ⟨hg, hw, c2_update_motion c2p c2g hg hw 0 0 c2l c2st rfl rfl⟩

/-- Helper: over integer bounds with a unit stream, one `_.random` result
(with any previous value and no spread argument) lies in
[min, max + 20): the base sample is in [min, max] and the optional jitter
adds less than 20. -/
theorem random_range (mnq mxq : ℚ) (mn mx : ℤ) (hmn : mnq = ((mn : ℤ) : ℚ))
    (hmx : mxq = ((mx : ℤ) : ℚ)) (pv : JVal) (g : ℕ → ℚ)
    (hg : unitStream g) (hle : mn ≤ mx) :
    mnq ≤ (U.random mnq mxq pv JVal.undef g).1
    ∧ (U.random mnq mxq pv JVal.undef g).1 < mxq + 20 := by
  subst hmn hmx
  obtain ⟨z, hz, h0, h1⟩ := baseSample_int mn mx (g 0) (hg 0).1 (hg 0).2 hle
  have hz0 : ((mn : ℤ) : ℚ) ≤ (z : ℚ) := by exact_mod_cast h0
  have hz1 : (z : ℚ) ≤ ((mx : ℤ) : ℚ) := by exact_mod_cast h1
  have hj0 := (hg 1).1
  have hj1 := (hg 1).2
  simp only [U.random, JVal.truthy, hz]
  rw [if_neg Bool.false_ne_true]
  by_cases hc : pv.isNaN = false ∧ (25 : ℚ) ≤ |(z : ℚ) - pv.toNum|
  · rw [if_pos hc]
    refine ⟨?_, ?_⟩
    · show ((mn : ℤ) : ℚ) ≤ (z : ℚ) + g 1 * 20
      nlinarith
    · show (z : ℚ) + g 1 * 20 < ((mx : ℤ) : ℚ) + 20
      nlinarith
  · rw [if_neg hc]
    refine ⟨?_, ?_⟩
    · show ((mn : ℤ) : ℚ) ≤ (z : ℚ)
      exact hz0
    · show (z : ℚ) < ((mx : ℤ) : ℚ) + 20
      linarith

set_option maxHeartbeats 1600000 in
/-- Helper: one star generation leaves a unit-interval stream. -/
theorem genStar_unit (w h : ℤ) (palette : List String) (px py : JVal)
    (g : ℕ → ℚ) (hg : unitStream g) :
    unitStream (genStar w h palette px py g).2 := by
  have h1 : unitStream (U.random (-10) ((w : ℤ) : ℚ) px JVal.undef g).2 :=
    random_unit _ _ _ _ g hg
  have h2 : unitStream (U.random (-10) ((h : ℤ) : ℚ) py JVal.undef
      (U.random (-10) ((w : ℤ) : ℚ) px JVal.undef g).2).2 :=
    random_unit _ _ _ _ _ h1
  have h3 : unitStream (U.pick palette (U.random (-10) ((h : ℤ) : ℚ) py
      JVal.undef (U.random (-10) ((w : ℤ) : ℚ) px JVal.undef g).2).2).2 :=
    pick_unit _ _ h2
  intro n
  exact h3 (n + 1)

set_option maxHeartbeats 1600000 in
/-- Helper: the coordinates of one generated star lie in
[-10, width + 20) and [-10, height + 20). -/
theorem genStar_bounds (w h : ℤ) (palette : List String) (px py : JVal)
    (g : ℕ → ℚ) (hg : unitStream g) (hw : -10 ≤ w) (hh : -10 ≤ h) :
    (-10 ≤ (genStar w h palette px py g).1.x
      ∧ (genStar w h palette px py g).1.x < (w : ℚ) + 20)
    ∧ (-10 ≤ (genStar w h palette px py g).1.y
      ∧ (genStar w h palette px py g).1.y < (h : ℚ) + 20) := by
  constructor
  · have hx := random_range (-10) ((w : ℤ) : ℚ) (-10) w (by norm_num) rfl px
      g hg hw
    exact hx
  · have hy := random_range (-10) ((h : ℤ) : ℚ) (-10) h (by norm_num) rfl py
      (U.random (-10) ((w : ℤ) : ℚ) px JVal.undef g).2
      (random_unit _ _ _ _ g hg) hh
    exact hy

/-- Helper: the star-generation loop leaves a unit-interval stream. -/
theorem genStars_unit (w h : ℤ) (palette : List String) :
    ∀ (n : ℕ) (px py : JVal) (g : ℕ → ℚ), unitStream g →
      unitStream (genStars w h palette n px py g).2.2.2
  | 0, _, _, _, hg => hg
  | Nat.succ n, px, py, g, hg =>
      genStars_unit w h palette n _ _ _ (genStar_unit w h palette px py g hg)

/-- Helper: every star produced by the generation loop respects the
coordinate bounds. -/
theorem genStars_bounds (w h : ℤ) (palette : List String) (hw : -10 ≤ w)
    (hh : -10 ≤ h) :
    ∀ (n : ℕ) (px py : JVal) (g : ℕ → ℚ), unitStream g →
      ∀ st ∈ (genStars w h palette n px py g).1,
        (-10 ≤ st.x ∧ st.x < (w : ℚ) + 20)
        ∧ (-10 ≤ st.y ∧ st.y < (h : ℚ) + 20)
  | 0, px, py, g, hg => by simp [genStars]
  | Nat.succ n, px, py, g, hg => by
      intro st hst
      simp only [genStars, List.mem_cons] at hst
      rcases hst with rfl | hst
      · exact genStar_bounds w h palette px py g hg hw hh
      · exact genStars_bounds w h palette hw hh n _ _ _
          (genStar_unit w h palette px py g hg) st hst

/-- Helper: every star installed by the calculate loop respects the
coordinate bounds. -/
theorem calcLayers_bounds (w h : ℤ) (cl : List String) (hw : -10 ≤ w)
    (hh : -10 ≤ h) :
    ∀ (ls : List Layer) (px py : JVal) (g : ℕ → ℚ), unitStream g →
      ∀ l2 ∈ (calcLayers w h cl ls px py g).1, ∀ st ∈ l2.stars,
        (-10 ≤ st.x ∧ st.x < (w : ℚ) + 20)
        ∧ (-10 ≤ st.y ∧ st.y < (h : ℚ) + 20)
  | [], _, _, _, _ => by simp [calcLayers]
  | l :: ls, px, py, g, hg => by
      intro l2 hl2 st hst
      simp only [calcLayers, List.mem_cons] at hl2
      rcases hl2 with rfl | hl2
      · exact genStars_bounds w h _ hw hh _ px py g hg st (by simpa using hst)
      · exact calcLayers_bounds w h cl hw hh ls _ _ _
          (genStars_unit w h _ _ px py g hg) l2 hl2 st hst

/-- C5 (amended): every star stored by calculate has, at the moment of
generation, coordinates satisfying -10 <= x < width + 20 and
-10 <= y < height + 20: the base sample lies in [-10, width] (resp.
height), and the spread jitter can add up to (but strictly less than) 20
more, so the claimed upper bounds width and height can be exceeded. -/
theorem c5_star_bounds_amended (p : Parallax) (g : ℕ → ℚ)
    (hg : ∀ n, 0 ≤ g n ∧ g n < 1) (hw : -10 ≤ p.width)
    (hh : -10 ≤ p.height) :
    ∀ l ∈ (Parallax.calculate p g).1.layers, ∀ st ∈ l.stars,
      (-10 ≤ st.x ∧ st.x < (p.width : ℚ) + 20)
      ∧ (-10 ≤ st.y ∧ st.y < (p.height : ℚ) + 20) := by
  intro l hl st hst
  exact calcLayers_bounds p.width p.height p.colors hw hh p.layers
    JVal.null JVal.null g hg l hl st hst

/-- C5 (witness): the amended bounds instantiated on a concrete 50 by 50
instance with the constant zero stream. -/
theorem c5_star_bounds_witness :
    (∀ n, 0 ≤ c5wg n ∧ c5wg n < 1) ∧ (-10 : ℤ) ≤ c5wp.width
    ∧ (-10 : ℤ) ≤ c5wp.height
    ∧ (∀ l ∈ (Parallax.calculate c5wp c5wg).1.layers, ∀ st ∈ l.stars,
        (-10 ≤ st.x ∧ st.x < (c5wp.width : ℚ) + 20)
        ∧ (-10 ≤ st.y ∧ st.y < (c5wp.height : ℚ) + 20)) := by
  have hg : ∀ n, 0 ≤ c5wg n ∧ c5wg n < 1 := fun n => by norm_num [c5wg]
  have hw : (-10 : ℤ) ≤ c5wp.width := by norm_num [c5wp]
  have hh : (-10 : ℤ) ≤ c5wp.height := by norm_num [c5wp]
  exact ⟨hg, hw, hh, c5_star_bounds_amended c5wp c5wg hg hw hh⟩

/-- Helper: one-step unfolding of the generation loop at count one. -/
theorem genStars_one (w h : ℤ) (palette : List String) (px py : JVal)
    (g : ℕ → ℚ) :
    (genStars w h palette 1 px py g).1
      = [(genStar w h palette px py g).1] := rfl

/-- Helper: the counterexample instance generates exactly one star, at
(110, 55), outside the claimed ranges. -/
theorem c5_layers_eval : (Parallax.calculate c5p c5g).1.layers
    = [{ size := 1, speed := ⟨0, 0⟩, colors := none,
         density := some (1 / 10000),
         stars := [⟨110, 55, some ("#ffffff"), ⟨0, 1 / 40⟩⟩] }] := by
  norm_num [Parallax.calculate, calcLayers, genStars_one, genStars, genStar,
    U.random, U.pick, U.baseSample, starCount, Layer.densityOrDefault,
    JVal.isNaN, JVal.toNum, JVal.truthy, c5p, c5layer, c5g]

/-- C5 (counterexample): on the 100 by 100 counterexample instance the
spread jitter pushes the stored star to x = 110 > width = 100, refuting
the claimed bound -10 <= x <= width. -/
theorem c5_bounds_counterexample :
    ∃ l ∈ (Parallax.calculate c5p c5g).1.layers, ∃ st ∈ l.stars,
      ¬ ((-10 ≤ st.x ∧ st.x ≤ (c5p.width : ℚ))
        ∧ (-10 ≤ st.y ∧ st.y ≤ (c5p.height : ℚ))) := by
  refine ⟨{ size := 1, speed := ⟨0, 0⟩, colors := none,
            density := some (1 / 10000),
            stars := [⟨110, 55, some ("#ffffff"), ⟨0, 1 / 40⟩⟩] },
    by rw [c5_layers_eval]; exact List.mem_singleton.mpr rfl,
    ⟨110, 55, some ("#ffffff"), ⟨0, 1 / 40⟩⟩,
    List.mem_singleton.mpr rfl, ?_⟩
  norm_num [c5p]

end ParallaxJs
